import Mathlib

/-!
Shallow embedding of `pkg/controller/certificates/sync.go` from the
cert-manager repository, together with theorems settling the spec claims
about the reconciliation (`sync`), issuance (`issue`) and domain-set
comparison (`equalUnsorted`) logic.

Byte sequences are modelled as `List Nat`; Go strings as Lean `String`.
External collaborators (the issuer lister, the issuer capability, the
credential store, and the crypto/PEM library functions) are modelled as
per-pass oracle inputs collected in environment structures, since the Go
code only observes their results for the single request being reconciled.
-/

abbrev Bytes := List Nat

/-- `api.TLSCertKey` from k8s.io/api/core/v1. -/
def TLSCertKey : String := "tls.crt"

/-- `api.TLSPrivateKeyKey` from k8s.io/api/core/v1. -/
def TLSPrivateKeyKey : String := "tls.key"

/-- A k8s Secret as the code uses it: name, its scope, and the string-keyed
byte-sequence data map (modelled as an association list). -/
structure Secret where
  name : String
  ns : String
  data : List (String × Bytes)
  deriving DecidableEq, Repr

/-- `v1alpha1.CertificateSpec`: the fields `sync`/`issue` read. -/
structure CertificateSpec where
  issuer : String
  secretName : String
  domains : List String
  deriving DecidableEq, Repr

/-- `v1alpha1.Certificate`: metadata name/scope plus its spec. -/
structure Certificate where
  name : String
  ns : String
  spec : CertificateSpec
  deriving DecidableEq, Repr

/-- The issuer resource as read by `sync`: `issuerObj.Name`,
`issuerObj.Namespace`, `issuerObj.Status.Ready`. -/
structure Issuer where
  name : String
  ns : String
  statusReady : Bool
  deriving DecidableEq, Repr

/-- A parsed X.509 certificate, reduced to the one field `sync` reads:
`cert.DNSNames`. -/
structure Cert where
  dnsNames : List String
  deriving DecidableEq, Repr

/-! ## equalUnsorted

```go
func equalUnsorted(s1 []string, s2 []string) bool {
    if len(s1) != len(s2) { return false }
    s1_2, s2_2 := make([]string, len(s1)), make([]string, len(s2))
    sort.Strings(s1)
    sort.Strings(s2)
    for i, s := range s1_2 {
        if s != s2_2[i] { return false }
    }
    return true
}
```

Go slices are references into caller-owned arrays and `sort.Strings`
sorts in place, so the embedding returns, along with the boolean result,
the contents of both argument slices after the call. `make([]string, n)`
allocates a slice of `n` empty strings (`List.replicate n ""`).
-/

/-- Model of Go's `<` on strings: lexicographic comparison of character
codes (Go compares bytewise; on the character lists this is the same
order). -/
def strLt : List Char → List Char → Bool
  | [], [] => false
  | [], _ :: _ => true
  | _ :: _, [] => false
  | x :: xs, y :: ys =>
    if x.toNat < y.toNat then true
    else if y.toNat < x.toNat then false
    else strLt xs ys

/-- `a <= b` on Go strings. -/
def strLe (a b : String) : Bool := !(strLt b.data a.data)

/-- Ascending insertion of one string into a sorted list; building block of
the model of `sort.Strings`. -/
def insertSorted (x : String) : List String → List String
  | [] => [x]
  | y :: ys => if strLe x y then x :: y :: ys else y :: insertSorted x ys

/-- Model of `sort.Strings`: sort ascending by the total order on strings. -/
def sortStrings (l : List String) : List String :=
  l.foldr insertSorted []

/-- The element-wise comparison loop
`for i, s := range a { if s != b[i] { return false } }`.
The out-of-range branch is unreachable under the length guard. -/
def cmpLoop : List String → List String → Bool
  | [], _ => true
  | _ :: _, [] => false
  | x :: xs, y :: ys => if x ≠ y then false else cmpLoop xs ys

/-- Result of one call to `equalUnsorted`: the returned boolean and the
observable post-call contents of the two caller-owned slices. -/
structure EqualUnsortedResult where
  res : Bool
  s1After : List String
  s2After : List String
  deriving DecidableEq, Repr

/-- `equalUnsorted` as written in the source: on a length mismatch it
returns `false` with the inputs untouched; otherwise it allocates the two
fresh all-empty slices `s1_2`, `s2_2`, sorts the original inputs in place,
and runs the comparison loop over the fresh slices. -/
def equalUnsorted (s1 s2 : List String) : EqualUnsortedResult :=
  if s1.length ≠ s2.length then ⟨false, s1, s2⟩
  else
    let s1_2 := List.replicate s1.length ""
    let s2_2 := List.replicate s2.length ""
    let s1sorted := sortStrings s1
    let s2sorted := sortStrings s2
    ⟨cmpLoop s1_2 s2_2, s1sorted, s2sorted⟩

/-- The comparator the specification describes (for comparison with the
code): true iff equal length and, after sorting both independently,
element-wise identical. -/
def equalUnsortedSpec (s1 s2 : List String) : Bool :=
  s1.length == s2.length && sortStrings s1 == sortStrings s2

/-! ## issue

```go
func issue(ctx *controller.Context, issuer issuer.Interface, crt *v1alpha1.Certificate) error {
    cert, key, err := issuer.Issue(crt)
    if err != nil { return fmt.Errorf("error issuing certificate: %s", err.Error()) }
    _, err = ctx.Client.Secrets(crt.Namespace).Create(&api.Secret{ ... })
    if err != nil { return fmt.Errorf("error saving certificate: %s", err.Error()) }
    return nil
}
```
-/

/-- A Go `error` result: `nil` or an error with its message. -/
inductive GoResult where
  | ok
  | err (msg : String)
  deriving DecidableEq, Repr

/-- Outcome of the credential store `Create` call for this pass. The store
distinguishes an already-exists failure from other failures (k8s API
error kinds), so the model records that flag with the failure. -/
inductive CreateOutcome where
  | created
  | failed (alreadyExists : Bool) (msg : String)
  deriving DecidableEq, Repr

/-- Per-pass results of the two external calls `issue` makes:
`issuer.Issue(crt)` and the store `Create`. -/
structure IssueEnv where
  issueResult : Except String (Bytes × Bytes)
  createOutcome : CreateOutcome

/-- `issue` as written in the source: call the issuer capability; on its
failure return the issuing error with no create call; on success attempt
exactly one create of the named secret with both well-known fields, and
surface any create failure (`AlreadyExists` included) as the saving error.
The second component lists the create calls attempted. -/
def issue (env : IssueEnv) (crt : Certificate) : GoResult × List Secret :=
  match env.issueResult with
  | Except.error e => (GoResult.err ("error issuing certificate: " ++ e), [])
  | Except.ok (cert, key) =>
    let newSecret : Secret :=
      ⟨crt.spec.secretName, crt.ns, [(TLSCertKey, cert), (TLSPrivateKeyKey, key)]⟩
    match env.createOutcome with
    | CreateOutcome.created => (GoResult.ok, [newSecret])
    | CreateOutcome.failed _ e => (GoResult.err ("error saving certificate: " ++ e), [newSecret])

/-! ## sync -/

/-- Result of the credential store read
`Secrets(crt.Namespace).Get(crt.Spec.SecretName)`, classified the way the
code classifies it with `k8sErrors.IsNotFound`. -/
inductive ReadResult where
  | notFound
  | otherErr (msg : String)
  | found (s : Secret)
  deriving DecidableEq, Repr

/-- Results of the external crypto/PEM library calls, as functions of the
bytes the code passes them. `pemDecode b` is `pem.Decode b` returning the
block payload `block.Bytes`; `parseCertificate` is `x509.ParseCertificate`;
`parsePKCS1PrivateKey` is `x509.ParsePKCS1PrivateKey` returning an opaque
key handle; `validateKey` is `key.Validate()` succeeding. -/
structure CryptoOracle where
  pemDecode : Bytes → Option Bytes
  parseCertificate : Bytes → Option Cert
  parsePKCS1PrivateKey : Bytes → Option Nat
  validateKey : Nat → Bool

/-- The per-pass results of every external call `sync` makes, in source
order: the issuer lister `Get`, `issuer.IssuerFor`, `i.Prepare(crt)`, the
secret read, the crypto library, and the two calls `issue` makes. -/
structure SyncEnv where
  getIssuer : Option Issuer
  issuerFor : Except String Unit
  prepare : Option String
  readSecret : ReadResult
  crypto : CryptoOracle
  issueEnv : IssueEnv

/-- Observable trace of one `sync` call: the returned Go error, whether the
credential store read was performed, whether the `issue` path was entered,
and the store create calls attempted. -/
structure SyncTrace where
  result : GoResult
  storeRead : Bool
  issueAttempted : Bool
  createCalls : List Secret
  deriving DecidableEq, Repr

/-- Trace of `return issue(ctx, i, crt)` from inside `sync` after the
secret read. -/
def issueTrace (env : SyncEnv) (crt : Certificate) : SyncTrace :=
  ⟨(issue env.issueEnv crt).1, true, true, (issue env.issueEnv crt).2⟩

/-- The part of `sync` from `secret.Data[api.TLSCertKey]` on, applied to a
successfully read secret: presence of the two well-known fields, PEM
decode and parse of the certificate, PEM decode and parse of the private
key, key validation, then the domain comparison via `equalUnsorted`; any
failure routes to `issue`, and otherwise `sync` returns nil. -/
def validateStored (env : SyncEnv) (crt : Certificate) (s : Secret) : SyncTrace :=
  match s.data.lookup TLSCertKey, s.data.lookup TLSPrivateKeyKey with
  | some certBytes, some keyBytes =>
    match env.crypto.pemDecode certBytes with
    | none => issueTrace env crt
    | some certDer =>
      match env.crypto.parseCertificate certDer with
      | none => issueTrace env crt
      | some cert =>
        match env.crypto.pemDecode keyBytes with
        | none => issueTrace env crt
        | some keyDer =>
          match env.crypto.parsePKCS1PrivateKey keyDer with
          | none => issueTrace env crt
          | some key =>
            if !env.crypto.validateKey key then issueTrace env crt
            else if !(equalUnsorted crt.spec.domains cert.dnsNames).res then
              issueTrace env crt
            else ⟨GoResult.ok, true, false, []⟩
  | _, _ => issueTrace env crt

/-- `sync` as written in the source: resolve the issuer (absence is a hard
error), hard-stop if it is not ready, resolve its implementation and run
`Prepare` (failures are hard errors), read the secret (not-found routes to
`issue`, any other read error is returned as is), then validate the stored
credential via `validateStored`. -/
def sync (env : SyncEnv) (crt : Certificate) : SyncTrace :=
  match env.getIssuer with
  | none =>
    ⟨GoResult.err ("issuer \x27" ++ crt.spec.issuer ++ "\x27 for certificate \x27" ++
      crt.name ++ "\x27 does not exist"), false, false, []⟩
  | some issuerObj =>
    if !issuerObj.statusReady then
      ⟨GoResult.err ("issuer \x27" ++ issuerObj.ns ++ "/" ++ issuerObj.name ++
        "\x27 for certificate \x27" ++ crt.name ++ "\x27 not ready"), false, false, []⟩
    else
      match env.issuerFor with
      | Except.error e =>
        ⟨GoResult.err ("error getting issuer implementation for issuer \x27" ++
          issuerObj.name ++ "\x27: " ++ e), false, false, []⟩
      | Except.ok _ =>
        match env.prepare with
        | some e => ⟨GoResult.err e, false, false, []⟩
        | none =>
          match env.readSecret with
          | ReadResult.notFound => issueTrace env crt
          | ReadResult.otherErr e => ⟨GoResult.err e, true, false, []⟩
          | ReadResult.found s => validateStored env crt s

/-! ## Concrete fixtures used by counterexamples and witnesses -/

/-- A request for the single domain `a.com`, target secret `site-tls`. -/
def crtEx : Certificate := ⟨"site", "default", ⟨"prod-ca", "site-tls", ["a.com"]⟩⟩

/-- A ready issuer named `prod-ca`. -/
def issuerReady : Issuer := ⟨"prod-ca", "default", true⟩

/-- A crypto oracle whose library calls all fail. -/
def cryptoRefusing : CryptoOracle :=
  ⟨fun _ => none, fun _ => none, fun _ => none, fun _ => false⟩

/-- An issue-path environment where issuance and the create both succeed. -/
def issueEnvOk : IssueEnv := ⟨Except.ok ([2], [3]), CreateOutcome.created⟩

/-- The parsed certificate the C3 fixture oracle returns: it covers
`b.com`, not the requested `a.com`. -/
def certC3 : Cert := ⟨["b.com"]⟩

/-- Crypto oracle under which the stored bytes PEM-decode to themselves,
parse to `certC3`, and the private key parses and validates. -/
def cryptoC3 : CryptoOracle :=
  ⟨fun b => some b, fun _ => some certC3, fun _ => some 0, fun _ => true⟩

/-- A stored secret carrying both well-known fields. -/
def secretEx : Secret :=
  ⟨"site-tls", "default", [(TLSCertKey, [0]), (TLSPrivateKeyKey, [1])]⟩

/-- C3 environment: ready issuer, successful Prepare, the stored secret
present and fully parseable under `cryptoC3`. -/
def envC3 : SyncEnv :=
  ⟨some issuerReady, Except.ok (), none, ReadResult.found secretEx, cryptoC3, issueEnvOk⟩

/-- C7 environment: like C3 but the certificate bytes fail PEM decoding. -/
def envC7 : SyncEnv :=
  ⟨some issuerReady, Except.ok (), none, ReadResult.found secretEx, cryptoRefusing, issueEnvOk⟩

/-- C8 environment: the credential store read fails with a non-not-found
error. -/
def envC8 : SyncEnv :=
  ⟨some issuerReady, Except.ok (), none, ReadResult.otherErr "etcd timeout",
   cryptoRefusing, issueEnvOk⟩

/-- C9 environment: the issuer resolves but is not ready. -/
def envC9 : SyncEnv :=
  ⟨some ⟨"prod-ca", "default", false⟩, Except.ok (), none, ReadResult.notFound,
   cryptoRefusing, issueEnvOk⟩

/-! ## Helper lemmas -/

theorem cmpLoop_replicate (n : Nat) :
    cmpLoop (List.replicate n "") (List.replicate n "") = true := by
  induction n with
  | zero => rfl
  | succ n ih => simpa [List.replicate, cmpLoop] using ih

/-- The boolean `equalUnsorted` returns is exactly the length test. -/
theorem equalUnsorted_res (s1 s2 : List String) :
    (equalUnsorted s1 s2).res = decide (s1.length = s2.length) := by
  unfold equalUnsorted
  by_cases h : s1.length = s2.length
  · simp [h, cmpLoop_replicate]
  · simp [h]

/-! ## Claim theorems -/

/-- C1: the code contradicts the stated contract of the Domain Set
Comparator. On `["a"]` vs `["b"]` — equal length but different sorted
contents — the specified comparator requires `false`, yet `equalUnsorted`
returns `true`: the loop compares the freshly allocated empty slices, not
the sorted inputs. -/
theorem equalUnsorted_violates_sorted_equality :
    (equalUnsorted ["a"] ["b"]).res = true ∧
    equalUnsortedSpec ["a"] ["b"] = false := by
  decide

/-- C2: for every pair of string sequences of equal length, `equalUnsorted`
returns `true` regardless of the sequences' contents. -/
theorem equalUnsorted_true_of_eq_length (s1 s2 : List String)
    (h : s1.length = s2.length) : (equalUnsorted s1 s2).res = true := by
  rw [equalUnsorted_res]
  exact decide_eq_true h

/-- Witness for C2: equal-length sequences with different contents. -/
theorem equalUnsorted_true_of_eq_length_witness :
    (["a.com"] : List String).length = (["b.org"] : List String).length ∧
    (equalUnsorted ["a.com"] ["b.org"]).res = true :=
  ⟨rfl, equalUnsorted_true_of_eq_length ["a.com"] ["b.org"] rfl⟩

/-- C3: a pass with a ready issuer, successful Prepare, and a stored
credential that decodes, parses and validates, but whose certificate
covers `b.com` while the request asks for `a.com`: validity as the claim
defines it fails (the name sets differ), yet `sync` attempts no issuance
and succeeds — the domain comparison degenerates to a length check. -/
theorem sync_domain_mismatch_skips_issue :
    sync envC3 crtEx = ⟨GoResult.ok, true, false, []⟩ ∧
    equalUnsortedSpec crtEx.spec.domains certC3.dnsNames = false := by
  decide

/-- C4 counterexample: a successful issuance followed by a create that
fails with `AlreadyExists` makes `issue` return an error, not success. -/
theorem issue_already_exists_surfaces_error :
    (issue ⟨Except.ok ([2], [3]), CreateOutcome.failed true "already exists"⟩
      crtEx).1 ≠ GoResult.ok := by
  decide

/-- C4 amended: an `AlreadyExists` failure on the store create is handled
like every other create failure — `issue` surfaces the saving error to the
caller rather than treating it as benign success. -/
theorem issue_already_exists_is_error (env : IssueEnv) (crt : Certificate)
    (cb kb : Bytes) (e : String)
    (hIssue : env.issueResult = Except.ok (cb, kb))
    (hCreate : env.createOutcome = CreateOutcome.failed true e) :
    (issue env crt).1 = GoResult.err ("error saving certificate: " ++ e) := by
  unfold issue
  rw [hIssue, hCreate]

/-- Witness for C4's amended claim. -/
theorem issue_already_exists_is_error_witness :
    (issue ⟨Except.ok ([2], [3]), CreateOutcome.failed true "exists"⟩ crtEx).1 =
    GoResult.err ("error saving certificate: " ++ "exists") :=
  issue_already_exists_is_error _ crtEx [2] [3] "exists" rfl rfl

/-- C5: `equalUnsorted` observably mutates its caller-owned inputs: with
`s1 = ["b","a"]` and `s2 = ["d","c"]`, both slices are sorted in place,
so after the call neither holds its pre-call contents. -/
theorem equalUnsorted_mutates_inputs :
    (equalUnsorted ["b", "a"] ["d", "c"]).s1After = ["a", "b"] ∧
    (equalUnsorted ["b", "a"] ["d", "c"]).s2After = ["c", "d"] ∧
    (["a", "b"] : List String) ≠ ["b", "a"] := by
  decide

/-- C6: if the issuer capability's Issue call fails, `issue` returns the
issuing hard error and attempts no store write. -/
theorem issue_issuer_failure_no_write (env : IssueEnv) (crt : Certificate)
    (e : String) (h : env.issueResult = Except.error e) :
    issue env crt = (GoResult.err ("error issuing certificate: " ++ e), []) := by
  unfold issue
  rw [h]

/-- Witness for C6. -/
theorem issue_issuer_failure_no_write_witness :
    issue ⟨Except.error "backend down", CreateOutcome.created⟩ crtEx =
    (GoResult.err ("error issuing certificate: " ++ "backend down"), []) :=
  issue_issuer_failure_no_write _ crtEx "backend down" rfl

/-- C7: with the issuer ready, Prepare successful, and a stored secret
bearing both well-known fields whose certificate bytes fail PEM decoding,
`sync` routes to the Issue path and returns exactly what `issue` returns —
the decode failure itself never surfaces as the returned error. -/
theorem sync_corrupt_cert_pem_self_heals (env : SyncEnv) (crt : Certificate)
    (iss : Issuer) (s : Secret) (cb kb : Bytes)
    (hGet : env.getIssuer = some iss) (hReady : iss.statusReady = true)
    (hFor : env.issuerFor = Except.ok ()) (hPrep : env.prepare = none)
    (hRead : env.readSecret = ReadResult.found s)
    (hcb : s.data.lookup TLSCertKey = some cb)
    (hkb : s.data.lookup TLSPrivateKeyKey = some kb)
    (hPem : env.crypto.pemDecode cb = none) :
    sync env crt = issueTrace env crt ∧ (sync env crt).issueAttempted = true := by
  have hmain : sync env crt = issueTrace env crt := by
    simp [sync, hGet, hReady, hFor, hPrep, hRead, validateStored, hcb, hkb, hPem]
  exact ⟨hmain, by rw [hmain]; rfl⟩

/-- Witness for C7. -/
theorem sync_corrupt_cert_pem_self_heals_witness :
    sync envC7 crtEx = issueTrace envC7 crtEx ∧
    (sync envC7 crtEx).issueAttempted = true :=
  sync_corrupt_cert_pem_self_heals envC7 crtEx issuerReady secretEx [0] [1]
    rfl rfl rfl rfl rfl (by decide) (by decide) rfl

/-- C8: once the issuer checks and Prepare have succeeded, a read failure
other than not-found is returned as a hard error with no issuance, while
the not-found case routes to the Issue path. -/
theorem sync_read_failure_cases (env : SyncEnv) (crt : Certificate) (iss : Issuer)
    (hGet : env.getIssuer = some iss) (hReady : iss.statusReady = true)
    (hFor : env.issuerFor = Except.ok ()) (hPrep : env.prepare = none) :
    (∀ e, env.readSecret = ReadResult.otherErr e →
      sync env crt = ⟨GoResult.err e, true, false, []⟩) ∧
    (env.readSecret = ReadResult.notFound →
      sync env crt = issueTrace env crt ∧ (sync env crt).issueAttempted = true) := by
  constructor
  · intro e hRead
    simp [sync, hGet, hReady, hFor, hPrep, hRead]
  · intro hRead
    have hmain : sync env crt = issueTrace env crt := by
      simp [sync, hGet, hReady, hFor, hPrep, hRead]
    exact ⟨hmain, by rw [hmain]; rfl⟩

/-- Witness for C8: a read failing with a non-not-found error. -/
theorem sync_read_failure_cases_witness :
    sync envC8 crtEx = ⟨GoResult.err "etcd timeout", true, false, []⟩ :=
  (sync_read_failure_cases envC8 crtEx issuerReady rfl rfl rfl rfl).1
    "etcd timeout" rfl

/-- C9: a resolved but not-ready issuer makes `sync` return the not-ready
hard error with no store read, no issuance and no create call. -/
theorem sync_issuer_not_ready (env : SyncEnv) (crt : Certificate) (iss : Issuer)
    (hGet : env.getIssuer = some iss) (hReady : iss.statusReady = false) :
    sync env crt =
      ⟨GoResult.err ("issuer \x27" ++ iss.ns ++ "/" ++ iss.name ++
        "\x27 for certificate \x27" ++ crt.name ++ "\x27 not ready"),
       false, false, []⟩ := by
  simp [sync, hGet, hReady]

/-- Witness for C9. -/
theorem sync_issuer_not_ready_witness :
    sync envC9 crtEx =
      ⟨GoResult.err ("issuer \x27" ++ "default" ++ "/" ++ "prod-ca" ++
        "\x27 for certificate \x27" ++ "site" ++ "\x27 not ready"),
       false, false, []⟩ :=
  sync_issuer_not_ready envC9 crtEx ⟨"prod-ca", "default", false⟩ rfl rfl

/-- C10: `equalUnsorted` is symmetric in its returned boolean. -/
theorem equalUnsorted_symm (s1 s2 : List String) :
    (equalUnsorted s1 s2).res = (equalUnsorted s2 s1).res := by
  rw [equalUnsorted_res, equalUnsorted_res]
  exact decide_eq_decide.mpr ⟨Eq.symm, Eq.symm⟩
